import Mathlib

/-!
Shallow embedding of the 2D "quantum superposition" canvas platformer
(`src/game.js`).  Numbers are modelled as rationals: every arithmetic
operation performed by the game (additions of multiples of 0.5, the
constant products `250 * facing`, `120 * 1.5`) is exact in IEEE doubles,
so the rational semantics coincides with the JavaScript semantics on the
values the game manipulates.  Rendering, DOM wiring and the theme toggle
are out of scope; the simulation state and its transition functions are
embedded below, one Lean definition per source function.
-/

namespace QuantumGame

/-- Game constant from `src/game.js` line 29: `const GRAVITY = 0.5`. -/
def GRAVITY : ℚ := 0.5

/-- Game constant from `src/game.js` line 30: `const PLAYER_SPEED = 5`. -/
def PLAYER_SPEED : ℚ := 5

/-- Game constant from `src/game.js` line 31: `const JUMP_FORCE = -12`. -/
def JUMP_FORCE : ℚ := -12

/-- A static platform rectangle (class `Platform`, drawing omitted). -/
structure Platform where
  x : ℚ
  y : ℚ
  width : ℚ
  height : ℚ
deriving Repr, DecidableEq

/-- The goal square (class `Goal`, drawing omitted). -/
structure Goal where
  x : ℚ
  y : ℚ
  size : ℚ
deriving Repr, DecidableEq

/-- A candidate "ghost" position pushed by `enterSuperposition`. -/
structure Ghost where
  x : ℚ
  y : ℚ
deriving Repr, DecidableEq

/-- The mutable player record (class `Player` constructor, lines 63-74).
`width`/`height` are the body extent (30×30 in the game). -/
structure Player where
  width : ℚ
  height : ℚ
  x : ℚ
  y : ℚ
  dx : ℚ
  dy : ℚ
  onGround : Bool
  isInSuperposition : Bool
  ghosts : List Ghost
deriving Repr, DecidableEq

/-- The held-key state (module-level `keys` object, lines 170-173). -/
structure Keys where
  left : Bool
  right : Bool
deriving Repr, DecidableEq

/-- The module-level simulation state: `player`, `platforms`, `goal`,
canvas `width`/`height`, `gameWon`, and the live `keys` object. -/
structure GameState where
  player : Player
  platforms : List Platform
  goal : Goal
  width : ℚ
  height : ℚ
  gameWon : Bool
  keys : Keys
deriving Repr, DecidableEq

/-- The motion phase of `Player.update` (lines 93-98): `x += dx`,
then `dy += GRAVITY`, then `y += dy` (with the already-updated `dy`). -/
def Player.afterMotion (p : Player) : Player :=
  let p1 := { p with x := p.x + p.dx }
  let p2 := { p1 with dy := p1.dy + GRAVITY }
  { p2 with y := p2.y + p2.dy }

/-- The platform-collision loop of `Player.update` (lines 104-119): scan
platforms in order; on the first platform that the body overlaps
horizontally and whose top edge the body's bottom crossed downward this
step, snap the bottom to the platform top, zero `dy` and report `true`
(the loop `break`s); otherwise report `false` with the player unchanged. -/
def resolvePlatforms (p : Player) : List Platform → Player × Bool
  | [] => (p, false)
  | platform :: rest =>
    let playerBottom := p.y + p.height
    let platformTop := platform.y
    let playerRight := p.x + p.width
    let platformRight := platform.x + platform.width
    if playerRight > platform.x ∧ p.x < platformRight then
      if playerBottom ≥ platformTop ∧ playerBottom - p.dy ≤ platformTop then
        ({ p with y := platformTop - p.height, dy := 0 }, true)
      else resolvePlatforms p rest
    else resolvePlatforms p rest

/-- The landing condition tested by the loop body of `resolvePlatforms`
for one platform: horizontal overlap, post-move bottom at-or-below the
platform top, and pre-move bottom (`playerBottom - dy`) at-or-above it. -/
def landsOn (p : Player) (platform : Platform) : Prop :=
  (p.x + p.width > platform.x ∧ p.x < platform.x + platform.width) ∧
  (p.y + p.height ≥ platform.y ∧ p.y + p.height - p.dy ≤ platform.y)

instance (p : Player) (platform : Platform) : Decidable (landsOn p platform) := by
  unfold landsOn; infer_instance

/-- `Player.update` (lines 90-127): no-op while in superposition;
otherwise move, resolve platform collisions (first match wins), set
`onGround`, then the floor fallback clamps the body to the world floor
when it fell past the bottom without landing on a platform. -/
def Player.update (p : Player) (platforms : List Platform) (height : ℚ) : Player :=
  if p.isInSuperposition then p
  else
    let moved := p.afterMotion
    let res := resolvePlatforms moved platforms
    let landed := { res.1 with onGround := res.2 }
    if landed.y + landed.height > height ∧ landed.onGround = false then
      { landed with y := height - landed.height, dy := 0, onGround := true }
    else landed

/-- `Player.jump` (lines 129-133). -/
def Player.jump (p : Player) : Player :=
  if p.onGround ∧ ¬ p.isInSuperposition then { p with dy := JUMP_FORCE } else p

/-- The facing-direction capture of `enterSuperposition` (line 146):
`keys.right ? 1 : (keys.left ? -1 : 1)`. -/
def facingOf (keys : Keys) : ℚ :=
  if keys.right then 1 else if keys.left then -1 else 1

/-- `Player.enterSuperposition` (lines 135-157): rejected while airborne
or already active; otherwise activate and push the three ghost candidates
computed from the current position and captured facing direction. -/
def Player.enterSuperposition (p : Player) (keys : Keys) : Player :=
  if p.onGround = false ∨ p.isInSuperposition = true then p
  else
    let facing := facingOf keys
    let longLeapX : ℚ := 250
    let shortLeapX : ℚ := 100
    let leapHeight : ℚ := 120
    { p with
      isInSuperposition := true,
      ghosts :=
        [ { x := p.x + longLeapX * facing, y := p.y - leapHeight },
          { x := p.x + shortLeapX * facing, y := p.y - leapHeight * 1.5 },
          { x := p.x + shortLeapX * facing, y := p.y - 20 } ] }

/-- `Player.collapse` (lines 159-166). -/
def Player.collapse (p : Player) (targetX targetY : ℚ) : Player :=
  { p with
    x := targetX, y := targetY,
    isInSuperposition := false, ghosts := [],
    dy := 0, onGround := false }

/-- The hit test of `handleCanvasClick` (lines 242-247) for one ghost:
the click point lies inside the ghost's bounding box (ghost position,
player width × player height, bounds inclusive). -/
def boxContains (p : Player) (clickX clickY : ℚ) (g : Ghost) : Prop :=
  clickX ≥ g.x ∧ clickX ≤ g.x + p.width ∧ clickY ≥ g.y ∧ clickY ≤ g.y + p.height

instance (p : Player) (clickX clickY : ℚ) (g : Ghost) :
    Decidable (boxContains p clickX clickY g) := by
  unfold boxContains; infer_instance

/-- The ghost-scanning loop of `handleCanvasClick` (lines 241-251):
collapse to the first ghost whose box contains the click, else no-op. -/
def scanGhosts (p : Player) (clickX clickY : ℚ) : List Ghost → Player
  | [] => p
  | g :: rest =>
    if boxContains p clickX clickY g then p.collapse g.x g.y
    else scanGhosts p clickX clickY rest

/-- `handleCanvasClick` (lines 233-252), with the canvas-relative click
coordinates taken as inputs (the DOM coordinate mapping is host code). -/
def handleCanvasClick (p : Player) (clickX clickY : ℚ) : Player :=
  if p.isInSuperposition = false then p
  else scanGhosts p clickX clickY p.ghosts

/-- The per-tick horizontal-speed assignment of `gameLoop`
(lines 268-270): `dx = 0`, then `-PLAYER_SPEED` if left is held, then
`PLAYER_SPEED` if right is held (right wins when both are held). -/
def keySpeed (keys : Keys) : ℚ :=
  if keys.right then PLAYER_SPEED else if keys.left then -PLAYER_SPEED else 0

/-- The win test of `gameLoop` (lines 276-283): axis-aligned rectangle
overlap between the player and the goal square. -/
def goalHit (p : Player) (g : Goal) : Prop :=
  p.x < g.x + g.size ∧ p.x + p.width > g.x ∧
  p.y < g.y + g.size ∧ p.y + p.height > g.y

instance (p : Player) (g : Goal) : Decidable (goalHit p g) := by
  unfold goalHit; infer_instance

/-- One tick of `gameLoop` (lines 254-301), simulation part only: when
won, return immediately (the frozen end screen is rendering); otherwise
assign `player.dx` from the keys, run `player.update`, and set `gameWon`
on goal overlap.  Drawing calls are omitted. -/
def gameLoopTick (s : GameState) : GameState :=
  if s.gameWon then s
  else
    let p0 := { s.player with dx := keySpeed s.keys }
    let p := p0.update s.platforms s.height
    if goalHit p s.goal then { s with player := p, gameWon := true }
    else { s with player := p }

/-- `init` (lines 196-231), with canvas `width`/`height` taken as inputs
(`resizeCanvas` reads them from the DOM): reset `gameWon`, build the two
test-level platforms and the goal, and create the player on the starting
platform.  The module-level `keys` object is not reset by `init`. -/
def init (keys : Keys) (width height : ℚ) : GameState :=
  let startPlatform : Platform := { x := 50, y := height - 50, width := 200, height := 20 }
  let destPlatform : Platform :=
    { x := width - 250, y := height - 50, width := 200, height := 20 }
  let goal : Goal := { x := width - 150, y := height - 90, size := 40 }
  let player0 : Player :=
    { width := 30, height := 30, x := 100, y := height - 30 - 50,
      dx := 0, dy := 0, onGround := false, isInSuperposition := false, ghosts := [] }
  let player := { player0 with x := startPlatform.x + 50, y := startPlatform.y - player0.height }
  { player := player, platforms := [startPlatform, destPlatform], goal := goal,
    width := width, height := height, gameWon := false, keys := keys }

/-- The restart clause of `handleKeyDown` (lines 180-182): pressing `r`
re-runs `init` only when `gameWon` is set; otherwise nothing happens.
The fresh canvas dimensions are inputs, as for `init`. -/
def handleRestartKey (s : GameState) (newWidth newHeight : ℚ) : GameState :=
  if s.gameWon then init s.keys newWidth newHeight else s

/-- The candidate-list/active-flag invariant of the superposition state:
the ghost list is empty exactly when superposition is inactive, and an
active superposition carries exactly three candidates. -/
def ghostInvariant (p : Player) : Prop :=
  (p.ghosts = [] ↔ p.isInSuperposition = false) ∧
  (p.isInSuperposition = true → p.ghosts.length = 3)

instance (p : Player) : Decidable (ghostInvariant p) := by
  unfold ghostInvariant; infer_instance

/-! Concrete states used to witness the theorems below. -/

/-- A grounded player at `(100, 200)`. -/
def pGrounded : Player := ⟨30, 30, 100, 200, 0, 0, true, false, []⟩

/-- An active superposition with three spread-out candidates. -/
def pActive : Player := ⟨30, 30, 0, 0, 0, 7, true, true, [⟨0, 0⟩, ⟨100, 100⟩, ⟨200, 200⟩]⟩

/-- A suspended (superposition-active) playing state whose player still
carries the horizontal velocity from before the keys were released. -/
def sSuspended : GameState :=
  { player := ⟨30, 30, 0, 0, 5, 0, true, true, [⟨1, 1⟩, ⟨2, 2⟩, ⟨3, 3⟩]⟩,
    platforms := [], goal := ⟨1000, 1000, 40⟩, width := 1600, height := 900,
    gameWon := false, keys := ⟨false, false⟩ }

/-- A player one tick away from landing on `nearPlatform`. -/
def pFalling : Player := ⟨30, 30, 100, 50, 0, 10, false, false, []⟩

/-- A platform the falling player does not overlap horizontally. -/
def farPlatform : Platform := ⟨400, 85, 50, 20⟩

/-- The platform `pFalling` lands on this tick. -/
def nearPlatform : Platform := ⟨90, 85, 100, 20⟩

/-- A playing state whose player overlaps the goal. -/
def sAtGoal : GameState :=
  { player := ⟨30, 30, 100, 100, 0, 0, false, false, []⟩,
    platforms := [], goal := ⟨100, 100, 40⟩, width := 1600, height := 10000,
    gameWon := false, keys := ⟨false, false⟩ }

/-- An already-won state. -/
def sWon : GameState :=
  { player := ⟨30, 30, 1460, 820, 0, 0, true, false, []⟩,
    platforms := [⟨50, 850, 200, 20⟩, ⟨1350, 850, 200, 20⟩],
    goal := ⟨1450, 810, 40⟩, width := 1600, height := 900,
    gameWon := true, keys := ⟨false, true⟩ }

/-- A still-playing state (for the rejected-restart witness). -/
def sPlaying : GameState :=
  { player := ⟨30, 30, 100, 820, 0, 0, true, false, []⟩,
    platforms := [⟨50, 850, 200, 20⟩, ⟨1350, 850, 200, 20⟩],
    goal := ⟨1450, 810, 40⟩, width := 1600, height := 900,
    gameWon := false, keys := ⟨false, false⟩ }

/-- An airborne playing state far from any platform, floor or goal. -/
def sAirborne : GameState :=
  { player := ⟨30, 30, 0, 0, 0, 0, false, false, []⟩,
    platforms := [], goal := ⟨1000, 1000, 40⟩, width := 1600, height := 10000,
    gameWon := false, keys := ⟨false, false⟩ }

/-- An airborne player (for the rejected-superposition witness). -/
def pAirborne : Player := ⟨30, 30, 0, 0, 0, 3, false, false, []⟩

/-- A grounded state with both direction keys held, on a tiny level. -/
def sBothKeysSmall : GameState :=
  { player := ⟨30, 30, 100, 200, 0, 0, true, false, []⟩,
    platforms := [], goal := ⟨0, 0, 40⟩, width := 320, height := 240,
    gameWon := false, keys := ⟨true, true⟩ }

/-- A grounded state with both direction keys held and the same player
position as `sBothKeysSmall`, on a different, larger level. -/
def sBothKeysLarge : GameState :=
  { player := ⟨30, 30, 100, 200, 12, 3, true, false, []⟩,
    platforms := [⟨50, 850, 200, 20⟩, ⟨1350, 850, 200, 20⟩],
    goal := ⟨1450, 810, 40⟩, width := 1600, height := 900,
    gameWon := false, keys := ⟨true, true⟩ }

section Theorems

attribute [local semireducible] Rat.add Rat.mul Rat.inv Rat.ofScientific Rat.sub

/-- Unfolding lemma for one step of the platform-collision loop: the two
nested tests of the loop body combine into the single `landsOn` test. -/
theorem resolvePlatforms_cons (p : Player) (platform : Platform) (rest : List Platform) :
    resolvePlatforms p (platform :: rest) =
      if landsOn p platform
      then ({ p with y := platform.y - p.height, dy := 0 }, true)
      else resolvePlatforms p rest := by
  by_cases h1 : p.x + p.width > platform.x ∧ p.x < platform.x + platform.width
  · by_cases h2 : p.y + p.height ≥ platform.y ∧ p.y + p.height - p.dy ≤ platform.y
    · simp [resolvePlatforms, landsOn, h1, h2]
    · simp [resolvePlatforms, landsOn, h1, h2]
  · simp [resolvePlatforms, landsOn, h1]

/-- The collision loop lands on the first platform that passes the
landing test, skipping any earlier non-matching platforms. -/
theorem resolvePlatforms_first (p : Player) (pre rest : List Platform) (plat : Platform)
    (hpre : ∀ q ∈ pre, ¬ landsOn p q) (hplat : landsOn p plat) :
    resolvePlatforms p (pre ++ plat :: rest) =
      ({ p with y := plat.y - p.height, dy := 0 }, true) := by
  induction pre with
  | nil => simp [resolvePlatforms_cons, hplat]
  | cons q qs ih =>
    rw [List.cons_append, resolvePlatforms_cons,
      if_neg (hpre q (List.mem_cons_self q qs))]
    exact ih fun r hr => hpre r (List.mem_cons_of_mem q hr)

/-- When the collision loop reports no landing, the player is returned
unchanged. -/
theorem resolvePlatforms_miss (p : Player) (l : List Platform)
    (h : (resolvePlatforms p l).2 = false) : resolvePlatforms p l = (p, false) := by
  induction l with
  | nil => rfl
  | cons q qs ih =>
    rw [resolvePlatforms_cons] at h ⊢
    by_cases hq : landsOn p q
    · rw [if_pos hq] at h; exact absurd h (by simp)
    · rw [if_neg hq] at h ⊢; exact ih h

/-- The collision loop only writes `y` and `dy`: every other player
field survives it unchanged. -/
theorem resolvePlatforms_preserves (p : Player) (l : List Platform) :
    (resolvePlatforms p l).1.ghosts = p.ghosts ∧
    (resolvePlatforms p l).1.isInSuperposition = p.isInSuperposition ∧
    (resolvePlatforms p l).1.width = p.width ∧
    (resolvePlatforms p l).1.height = p.height ∧
    (resolvePlatforms p l).1.x = p.x ∧
    (resolvePlatforms p l).1.dx = p.dx := by
  induction l with
  | nil => exact ⟨rfl, rfl, rfl, rfl, rfl, rfl⟩
  | cons q qs ih =>
    rw [resolvePlatforms_cons]
    by_cases hq : landsOn p q
    · rw [if_pos hq]; exact ⟨rfl, rfl, rfl, rfl, rfl, rfl⟩
    · rw [if_neg hq]; exact ih

/-- `Player.update` never touches the ghost list or the superposition
flag; it also preserves the body extent. -/
theorem update_preserves (p : Player) (plats : List Platform) (worldH : ℚ) :
    (p.update plats worldH).ghosts = p.ghosts ∧
    (p.update plats worldH).isInSuperposition = p.isInSuperposition ∧
    (p.update plats worldH).width = p.width ∧
    (p.update plats worldH).height = p.height := by
  unfold Player.update
  by_cases hs : p.isInSuperposition
  · simp [hs]
  · simp only [hs, Bool.false_eq_true, if_false]
    have hp := resolvePlatforms_preserves p.afterMotion plats
    have hg : p.afterMotion.ghosts = p.ghosts := rfl
    have hi : p.afterMotion.isInSuperposition = p.isInSuperposition := rfl
    have hw : p.afterMotion.width = p.width := rfl
    have hh : p.afterMotion.height = p.height := rfl
    by_cases hf :
        (resolvePlatforms p.afterMotion plats).1.y +
            (resolvePlatforms p.afterMotion plats).1.height > worldH ∧
          (resolvePlatforms p.afterMotion plats).2 = false
    · simp only [hf, and_true, if_true, if_pos]
      constructor
      · exact hp.1.trans hg
      constructor
      · rw [hp.2.1, hi]; simpa using hs
      constructor
      · exact hp.2.2.1.trans hw
      · exact hp.2.2.2.1.trans hh
    · simp only [hf, if_neg, if_false]
      constructor
      · exact hp.1.trans hg
      constructor
      · rw [hp.2.1, hi]; simpa using hs
      constructor
      · exact hp.2.2.1.trans hw
      · exact hp.2.2.2.1.trans hh

/-- On a permitted activation, `enterSuperposition` sets the flag and
pushes exactly the three spec candidates, leaving every other player
field unchanged. -/
theorem enterSuperposition_active (p : Player) (keys : Keys)
    (hg : p.onGround = true) (hs : p.isInSuperposition = false) :
    p.enterSuperposition keys =
      { p with
        isInSuperposition := true,
        ghosts :=
          [ { x := p.x + 250 * facingOf keys, y := p.y - 120 },
            { x := p.x + 100 * facingOf keys, y := p.y - 180 },
            { x := p.x + 100 * facingOf keys, y := p.y - 20 } ] } := by
  unfold Player.enterSuperposition
  rw [if_neg (by simp [hg, hs])]
  simp only [Player.mk.injEq, Ghost.mk.injEq]
  norm_num

/-- The ghost-scanning loop is a no-op when no ghost's box contains the
click point. -/
theorem scanGhosts_none (p : Player) (px py : ℚ) (l : List Ghost)
    (h : ∀ g ∈ l, ¬ boxContains p px py g) : scanGhosts p px py l = p := by
  induction l with
  | nil => rfl
  | cons g gs ih =>
    simp only [scanGhosts]
    rw [if_neg (h g (List.mem_cons_self g gs))]
    exact ih fun r hr => h r (List.mem_cons_of_mem g hr)

/-- The ghost-scanning loop collapses to the first ghost whose box
contains the click point, skipping earlier non-matching ghosts. -/
theorem scanGhosts_first (p : Player) (px py : ℚ) (pre rest : List Ghost) (g : Ghost)
    (hpre : ∀ q ∈ pre, ¬ boxContains p px py q) (hg : boxContains p px py g) :
    scanGhosts p px py (pre ++ g :: rest) = p.collapse g.x g.y := by
  induction pre with
  | nil => simp [scanGhosts, hg]
  | cons q qs ih =>
    rw [List.cons_append]
    simp only [scanGhosts]
    rw [if_neg (hpre q (List.mem_cons_self q qs))]
    exact ih fun r hr => hpre r (List.mem_cons_of_mem q hr)

/-- In a not-yet-won tick, the resulting player is exactly the updated
player (with `dx` first reassigned from the keys), whether or not the
goal test fires. -/
theorem gameLoopTick_player (s : GameState) (hw : s.gameWon = false) :
    (gameLoopTick s).player =
      Player.update { s.player with dx := keySpeed s.keys } s.platforms s.height := by
  simp only [gameLoopTick]
  rw [if_neg (by simp [hw])]
  split <;> rfl

/-- In a not-yet-won tick, `gameWon` is set exactly when the updated
player overlaps the goal. -/
theorem gameLoopTick_gameWon (s : GameState) (hw : s.gameWon = false) :
    ((gameLoopTick s).gameWon = true ↔
      goalHit (Player.update { s.player with dx := keySpeed s.keys } s.platforms s.height)
        s.goal) := by
  simp only [gameLoopTick]
  rw [if_neg (by simp [hw])]
  split
  · next hg => simpa using hg
  · next hg => simpa [hw] using hg

/-- C1: for every grounded body at `(x, y)` with captured facing
direction `f` (`facingOf keys`, which is `+1` or `-1`), entering
superposition generates exactly three candidates, in this order:
`(x + 250*f, y - 120)`, `(x + 100*f, y - 180)`, `(x + 100*f, y - 20)`.
The witness below instantiates the body at `(100, 200)` facing right and
obtains exactly `[(350, 80), (200, 20), (200, 180)]`. -/
theorem c1_superposition_candidates (p : Player) (keys : Keys)
    (hg : p.onGround = true) (hs : p.isInSuperposition = false) :
    (p.enterSuperposition keys).ghosts =
      [ { x := p.x + 250 * facingOf keys, y := p.y - 120 },
        { x := p.x + 100 * facingOf keys, y := p.y - 180 },
        { x := p.x + 100 * facingOf keys, y := p.y - 20 } ] := by
  rw [enterSuperposition_active p keys hg hs]

/-- C1 witness: a body at `(100, 200)` facing right yields exactly
`[(350, 80), (200, 20), (200, 180)]`. -/
theorem c1_superposition_candidates_witness :
    (pGrounded.enterSuperposition ⟨false, true⟩).ghosts =
      [⟨350, 80⟩, ⟨200, 20⟩, ⟨200, 180⟩] := by
  rw [c1_superposition_candidates pGrounded ⟨false, true⟩ rfl rfl]
  decide

/-- C2: with superposition active, candidates are tested in generated
order and the first whose bounding box (candidate position, body width ×
body height) contains the selection point wins: the body moves to that
candidate's position, `dy` becomes 0, `onGround` and the active flag
become false and the candidate list is emptied.  If no candidate's box
contains the point, the player state is unchanged. -/
theorem c2_collapse_selection (p : Player) (px py : ℚ) (hs : p.isInSuperposition = true) :
    ((∀ g ∈ p.ghosts, ¬ boxContains p px py g) → handleCanvasClick p px py = p) ∧
    (∀ pre g rest, p.ghosts = pre ++ g :: rest →
      (∀ q ∈ pre, ¬ boxContains p px py q) → boxContains p px py g →
      handleCanvasClick p px py =
        { p with x := g.x, y := g.y, dy := 0, onGround := false,
                 isInSuperposition := false, ghosts := [] }) := by
  constructor
  · intro h
    unfold handleCanvasClick
    rw [if_neg (by simp [hs])]
    exact scanGhosts_none p px py p.ghosts h
  · intro pre g rest hsplit hpre hg
    unfold handleCanvasClick
    rw [if_neg (by simp [hs]), hsplit, scanGhosts_first p px py pre rest g hpre hg]
    rfl

/-- C2 witness: clicking at `(110, 110)` on an active superposition whose
candidates sit at `(0,0)`, `(100,100)`, `(200,200)` teleports the body to
the second candidate (the first containing box) and deactivates. -/
theorem c2_collapse_selection_witness :
    handleCanvasClick pActive 110 110 =
      { pActive with x := 100, y := 100, dy := 0, onGround := false,
                     isInSuperposition := false, ghosts := [] } :=
  (c2_collapse_selection pActive 110 110 rfl).2
    [⟨0, 0⟩] ⟨100, 100⟩ [⟨200, 200⟩] rfl (by decide) (by decide)

/-- C3 counterexample: the claim that a tick mutates no field of the
body while superposition is active fails on the code: the game loop
reassigns `player.dx` from the held keys before it consults the
superposition flag, so a suspended player that entered superposition
with `dx = 5` and has since released the keys gets `dx = 0`. -/
theorem c3_frozen_tick_counterexample :
    sSuspended.player.isInSuperposition = true ∧ sSuspended.gameWon = false ∧
    (gameLoopTick sSuspended).player.dx ≠ sSuspended.player.dx := by decide

/-- C3 amended: while superposition is active (and the game not yet won)
a tick leaves the body's position `(x, y)`, vertical velocity `dy`,
`onGround`, the active flag and the candidate list unchanged — motion is
frozen, not zeroed — but `dx` is overwritten with the speed derived from
the currently held keys, so it does change whenever the held keys changed
during suspension. -/
theorem c3_frozen_tick (s : GameState) (hw : s.gameWon = false)
    (hs : s.player.isInSuperposition = true) :
    (gameLoopTick s).player.x = s.player.x ∧
    (gameLoopTick s).player.y = s.player.y ∧
    (gameLoopTick s).player.dy = s.player.dy ∧
    (gameLoopTick s).player.dx = keySpeed s.keys ∧
    (gameLoopTick s).player.onGround = s.player.onGround ∧
    (gameLoopTick s).player.isInSuperposition = true ∧
    (gameLoopTick s).player.ghosts = s.player.ghosts := by
  have hq : Player.update { s.player with dx := keySpeed s.keys } s.platforms s.height
      = { s.player with dx := keySpeed s.keys } := by
    unfold Player.update
    rw [if_pos]
    exact hs
  rw [gameLoopTick_player s hw, hq]
  exact ⟨rfl, rfl, rfl, rfl, rfl, hs, rfl⟩

/-- C3 amended witness: the suspended state keeps position, `dy` and the
candidates through a tick, while `dx` becomes the key-derived speed. -/
theorem c3_frozen_tick_witness :
    (gameLoopTick sSuspended).player.x = sSuspended.player.x ∧
    (gameLoopTick sSuspended).player.y = sSuspended.player.y ∧
    (gameLoopTick sSuspended).player.dy = sSuspended.player.dy ∧
    (gameLoopTick sSuspended).player.dx = keySpeed sSuspended.keys ∧
    (gameLoopTick sSuspended).player.onGround = sSuspended.player.onGround ∧
    (gameLoopTick sSuspended).player.isInSuperposition = true ∧
    (gameLoopTick sSuspended).player.ghosts = sSuspended.player.ghosts :=
  c3_frozen_tick sSuspended rfl rfl

/-- Zeta-expanded form of `Player.update` when superposition is not
active: collision resolution followed by the floor fallback. -/
theorem update_eq_of_not_super (p : Player) (plats : List Platform) (worldH : ℚ)
    (hs : p.isInSuperposition = false) :
    p.update plats worldH =
      (if (resolvePlatforms p.afterMotion plats).1.y +
            (resolvePlatforms p.afterMotion plats).1.height > worldH ∧
          (resolvePlatforms p.afterMotion plats).2 = false then
        { (resolvePlatforms p.afterMotion plats).1 with
          y := worldH - (resolvePlatforms p.afterMotion plats).1.height,
          dy := 0, onGround := true }
      else
        { (resolvePlatforms p.afterMotion plats).1 with
          onGround := (resolvePlatforms p.afterMotion plats).2 }) := by
  simp only [Player.update]
  rw [if_neg (by simp [hs])]

/-- A tick that ends airborne (neither platform nor floor caught the
body) applied gravity and nothing else to `dy`. -/
theorem update_airborne_dy (p : Player) (plats : List Platform) (worldH : ℚ)
    (hs : p.isInSuperposition = false)
    (hair : (p.update plats worldH).onGround = false) :
    (p.update plats worldH).dy = p.dy + GRAVITY := by
  rw [update_eq_of_not_super p plats worldH hs] at hair ⊢
  by_cases hf : (resolvePlatforms p.afterMotion plats).1.y +
        (resolvePlatforms p.afterMotion plats).1.height > worldH ∧
      (resolvePlatforms p.afterMotion plats).2 = false
  · rw [if_pos hf] at hair
    exact absurd hair (by simp)
  · rw [if_neg hf] at hair ⊢
    have hb : (resolvePlatforms p.afterMotion plats).2 = false := hair
    rw [resolvePlatforms_miss p.afterMotion plats hb]
    rfl

/-- C4: a body falling onto the first platform whose horizontal span it
overlaps and whose top edge its bottom crossed downward this tick is
snapped onto that platform: `onGround` is set, `dy` zeroed, and the
body's bottom placed exactly on the platform's top; earlier platforms in
declaration order that do not match are skipped (first match wins). -/
theorem c4_grounded_landing (p : Player) (pre rest : List Platform) (plat : Platform)
    (worldH : ℚ) (hs : p.isInSuperposition = false)
    (hpre : ∀ q ∈ pre, ¬ landsOn p.afterMotion q)
    (hplat : landsOn p.afterMotion plat) :
    (p.update (pre ++ plat :: rest) worldH).onGround = true ∧
    (p.update (pre ++ plat :: rest) worldH).dy = 0 ∧
    (p.update (pre ++ plat :: rest) worldH).y +
      (p.update (pre ++ plat :: rest) worldH).height = plat.y := by
  have hres := resolvePlatforms_first p.afterMotion pre rest plat hpre hplat
  rw [update_eq_of_not_super p (pre ++ plat :: rest) worldH hs, hres]
  rw [if_neg (by simp)]
  refine ⟨rfl, rfl, ?_⟩
  show plat.y - p.afterMotion.height + p.afterMotion.height = plat.y
  ring

/-- C4 witness: the falling body lands on `nearPlatform` (the second
platform in declaration order; the first does not overlap it):
`onGround` set, `dy` zeroed, bottom exactly on the platform top. -/
theorem c4_grounded_landing_witness :
    (pFalling.update ([farPlatform] ++ nearPlatform :: []) 900).onGround = true ∧
    (pFalling.update ([farPlatform] ++ nearPlatform :: []) 900).dy = 0 ∧
    (pFalling.update ([farPlatform] ++ nearPlatform :: []) 900).y +
      (pFalling.update ([farPlatform] ++ nearPlatform :: []) 900).height = nearPlatform.y :=
  c4_grounded_landing pFalling [farPlatform] [] nearPlatform 900 rfl
    (by decide) (by decide)

/-- C5: from a playing state, a tick sets `gameWon` exactly when the
updated body rectangle overlaps the goal rectangle under the AABB test;
and once won, a tick changes nothing at all (simulation frozen until an
explicit restart). -/
theorem c5_win_transition (s : GameState) :
    (s.gameWon = false →
      ((gameLoopTick s).gameWon = true ↔
        goalHit (Player.update { s.player with dx := keySpeed s.keys } s.platforms s.height)
          s.goal)) ∧
    (s.gameWon = true → gameLoopTick s = s) := by
  refine ⟨gameLoopTick_gameWon s, fun hw => ?_⟩
  unfold gameLoopTick
  rw [if_pos hw]

/-- C5 witness: a tick from a state overlapping the goal sets `gameWon`,
and a tick from a won state is the identity. -/
theorem c5_win_transition_witness :
    (gameLoopTick sAtGoal).gameWon = true ∧ gameLoopTick sWon = sWon :=
  ⟨((c5_win_transition sAtGoal).1 rfl).mpr (by decide),
   (c5_win_transition sWon).2 rfl⟩

/-- C6: on a playing tick with superposition inactive, if the body ends
the tick airborne (caught by neither a platform nor the floor), its
vertical velocity has increased by exactly the gravity constant
`GRAVITY = 0.5`, hence strictly increased. -/
theorem c6_gravity_step (s : GameState) (hw : s.gameWon = false)
    (hs : s.player.isInSuperposition = false)
    (hair : (gameLoopTick s).player.onGround = false) :
    (gameLoopTick s).player.dy = s.player.dy + GRAVITY ∧
    s.player.dy < (gameLoopTick s).player.dy := by
  rw [gameLoopTick_player s hw] at hair ⊢
  have hdy := update_airborne_dy { s.player with dx := keySpeed s.keys }
    s.platforms s.height hs hair
  refine ⟨hdy, ?_⟩
  rw [hdy]
  have hgrav : (0 : ℚ) < GRAVITY := by norm_num [GRAVITY]
  linarith

/-- C6 witness: the free-falling player's `dy` grows by `GRAVITY` on a
tick that leaves it airborne. -/
theorem c6_gravity_step_witness :
    (gameLoopTick sAirborne).player.dy = sAirborne.player.dy + GRAVITY ∧
    sAirborne.player.dy < (gameLoopTick sAirborne).player.dy :=
  c6_gravity_step sAirborne rfl rfl (by decide)

/-- C7: calling enter-superposition while airborne, or while already in
superposition, returns the player record entirely unchanged (every body
field and the whole superposition state); being a total function, the
embedded operation cannot throw. -/
theorem c7_rejected_superposition (p : Player) (keys : Keys)
    (h : p.onGround = false ∨ p.isInSuperposition = true) :
    p.enterSuperposition keys = p := by
  unfold Player.enterSuperposition
  rw [if_pos h]

/-- C7 witness: an airborne player is unchanged by enter-superposition. -/
theorem c7_rejected_superposition_witness :
    pAirborne.enterSuperposition ⟨false, true⟩ = pAirborne :=
  c7_rejected_superposition pAirborne ⟨false, true⟩ (Or.inl rfl)

/-- C8: a restart while still playing changes nothing; a restart after
winning re-runs `init`, which (for the same canvas dimensions)
reproduces exactly the initial player, platform list and goal of any
first init — independently of the preserved key state — and resets
`gameWon` to false. -/
theorem c8_restart (s : GameState) (w h : ℚ) (k : Keys) :
    (s.gameWon = false → handleRestartKey s w h = s) ∧
    (s.gameWon = true →
      handleRestartKey s w h = init s.keys w h ∧
      (handleRestartKey s w h).player = (init k w h).player ∧
      (handleRestartKey s w h).platforms = (init k w h).platforms ∧
      (handleRestartKey s w h).goal = (init k w h).goal ∧
      (handleRestartKey s w h).gameWon = false) := by
  constructor
  · intro hw
    unfold handleRestartKey
    rw [if_neg (by simp [hw])]
  · intro hw
    have he : handleRestartKey s w h = init s.keys w h := by
      unfold handleRestartKey
      rw [if_pos hw]
    exact ⟨he, by rw [he]; rfl, by rw [he]; rfl, by rw [he]; rfl, by rw [he]; rfl⟩

/-- C8 witness: restart is rejected in the playing state and, from the
won state, reproduces the first-init player and returns to playing. -/
theorem c8_restart_witness :
    handleRestartKey sPlaying 1600 900 = sPlaying ∧
    (handleRestartKey sWon 1600 900).player = (init ⟨false, false⟩ 1600 900).player ∧
    (handleRestartKey sWon 1600 900).gameWon = false :=
  ⟨(c8_restart sPlaying 1600 900 ⟨false, false⟩).1 rfl,
   ((c8_restart sWon 1600 900 ⟨false, false⟩).2 rfl).2.1,
   ((c8_restart sWon 1600 900 ⟨false, false⟩).2 rfl).2.2.2.2⟩

/-- The ghost-scanning loop preserves the candidate-list invariant. -/
theorem scanGhosts_ghostInvariant (p : Player) (px py : ℚ) (l : List Ghost)
    (hp : ghostInvariant p) : ghostInvariant (scanGhosts p px py l) := by
  induction l with
  | nil => exact hp
  | cons g gs ih =>
    simp only [scanGhosts]
    split
    · unfold Player.collapse ghostInvariant
      simp
    · exact ih

/-- C9: the candidate-list invariant — ghosts empty iff inactive, and
three candidates when active — holds after `init` and is preserved by
every public operation: the tick update, jump, enter-superposition,
collapse, the click handler, and the full game-loop tick. -/
theorem c9_ghost_invariant (p : Player) (keys : Keys) (plats : List Platform)
    (w h px py tx ty : ℚ) (hp : ghostInvariant p) :
    ghostInvariant (init keys w h).player ∧
    ghostInvariant (p.update plats h) ∧
    ghostInvariant p.jump ∧
    ghostInvariant (p.enterSuperposition keys) ∧
    ghostInvariant (p.collapse tx ty) ∧
    ghostInvariant (handleCanvasClick p px py) ∧
    (∀ s : GameState, ghostInvariant s.player → ghostInvariant (gameLoopTick s).player) := by
  have hupd : ∀ q : Player, ghostInvariant q → ghostInvariant (q.update plats h) := by
    intro q hq
    have hu := update_preserves q plats h
    unfold ghostInvariant at hq ⊢
    rw [hu.1, hu.2.1]
    exact hq
  refine ⟨?_, hupd p hp, ?_, ?_, ?_, ?_, ?_⟩
  · unfold ghostInvariant
    simp [init]
  · unfold Player.jump
    split
    · exact hp
    · exact hp
  · by_cases hb : p.onGround = false ∨ p.isInSuperposition = true
    · unfold Player.enterSuperposition
      rw [if_pos hb]
      exact hp
    · push_neg at hb
      have hg : p.onGround = true := by simpa using hb.1
      have hs : p.isInSuperposition = false := by simpa using hb.2
      rw [enterSuperposition_active p keys hg hs]
      unfold ghostInvariant
      simp
  · unfold Player.collapse ghostInvariant
    simp
  · unfold handleCanvasClick
    split
    · exact hp
    · exact scanGhosts_ghostInvariant p px py p.ghosts hp
  · intro s hsp
    by_cases hw : s.gameWon = false
    · rw [gameLoopTick_player s hw]
      have hu := update_preserves { s.player with dx := keySpeed s.keys } s.platforms s.height
      unfold ghostInvariant at hsp ⊢
      rw [hu.1, hu.2.1]
      exact hsp
    · have hw' : s.gameWon = true := by simpa using hw
      unfold gameLoopTick
      rw [if_pos hw']
      exact hsp

/-- C9 witness: the invariant holds for a grounded inactive player and
survives entering superposition. -/
theorem c9_ghost_invariant_witness :
    ghostInvariant (pGrounded.enterSuperposition ⟨false, true⟩) :=
  (c9_ghost_invariant pGrounded ⟨false, true⟩ [] 1600 900 0 0 0 0 (by decide)).2.2.2.1

/-- C10: candidate generation depends only on the body's position and
the held keys — two states with equal player position and key state but
arbitrarily different platforms, goal and world dimensions produce
identical candidate lists; when both direction keys are held the
captured facing is `+1` (right wins); and a collapse target is applied
verbatim, with no validation against geometry or world bounds. -/
theorem c10_candidate_independence (s1 s2 : GameState) (tx ty : ℚ)
    (hx : s1.player.x = s2.player.x) (hy : s1.player.y = s2.player.y)
    (hk : s1.keys = s2.keys)
    (hg1 : s1.player.onGround = true) (hg2 : s2.player.onGround = true)
    (hs1 : s1.player.isInSuperposition = false)
    (hs2 : s2.player.isInSuperposition = false) :
    ((s1.player.enterSuperposition s1.keys).ghosts =
      (s2.player.enterSuperposition s2.keys).ghosts) ∧
    (s1.keys.left = true → s1.keys.right = true → facingOf s1.keys = 1) ∧
    ((s1.player.enterSuperposition s1.keys).collapse tx ty).x = tx ∧
    ((s1.player.enterSuperposition s1.keys).collapse tx ty).y = ty := by
  refine ⟨?_, ?_, rfl, rfl⟩
  · rw [hk]
    simp only [enterSuperposition_active s1.player s2.keys hg1 hs1,
      enterSuperposition_active s2.player s2.keys hg2 hs2, hx, hy]
  · intro _ hr
    simp [facingOf, hr]

/-- C10 witness: the same grounded player with both keys held generates
identical candidates on a tiny empty level and on the full test level,
its captured facing is `+1`, and collapsing to `(-500, 99999)` — outside
both worlds — places the body exactly there. -/
theorem c10_candidate_independence_witness :
    ((sBothKeysSmall.player.enterSuperposition sBothKeysSmall.keys).ghosts =
      (sBothKeysLarge.player.enterSuperposition sBothKeysLarge.keys).ghosts) ∧
    facingOf sBothKeysSmall.keys = 1 ∧
    ((sBothKeysSmall.player.enterSuperposition sBothKeysSmall.keys).collapse
      (-500) 99999).x = -500 ∧
    ((sBothKeysSmall.player.enterSuperposition sBothKeysSmall.keys).collapse
      (-500) 99999).y = 99999 := by
  have h := c10_candidate_independence sBothKeysSmall sBothKeysLarge (-500) 99999
    rfl rfl rfl rfl rfl rfl rfl
  exact ⟨h.1, h.2.1 rfl rfl, h.2.2⟩

end Theorems

end QuantumGame
